import Mathlib

/-!
Formal model of the TVL aggregation service (src/app.py).

The service keeps a process-wide cache (tvl_cache, cache_time), fetches raw
TVL series per chain from one upstream HTTP endpoint, reshapes them into
per-chain summaries, and serves three endpoints: one chain, all chains, CSV.

Modelling conventions:
  - Python floats are modelled as rationals; NaN (the result of coercing a
    malformed tvl string) is modelled as the missing value of Option.
  - time.time() is an arbitrary rational passed in as the parameter now.
  - The requests layer is a function upstream : String -> Option payload;
    a network error, a non-2xx status and a JSON parse failure all raise in
    the source and are caught by the same except clause, so all three
    collapse to the value none.
  - Thread-pool fan-out in the two multi-chain endpoints is determinised to
    a sequential left fold over CHAINS; the claims proved here do not
    depend on completion order.
  - pandas sort_values is modelled with the stable insertion sort of
    Mathlib on the relevant key.  Note that the source calls sort_values
    without a kind argument, so the pandas default quicksort (numpy
    introsort) applies; pandas documents that only mergesort and stable are
    stable kinds.  Everything proved below about sorting is independent of
    the order of tied keys, except where explicitly discussed.
  - CSV serialisation is modelled up to the row list: the ok branch carries
    the sorted rows whose textual rendering the source streams out.
-/

namespace TvlApp

/-! Python string comparison is lexicographic on code points. -/

def charListLe : List Char → List Char → Bool
  | [], _ => true
  | _ :: _, [] => false
  | a :: as, b :: bs =>
    if a.toNat < b.toNat then true
    else if b.toNat < a.toNat then false
    else charListLe as bs

def strLe (a b : String) : Bool := charListLe a.data b.data

/-! Calendar dates: pd.to_datetime(date, unit=1s) followed by
strftime with format Y-m-d.  civilFromDays is the standard civil-from-days
conversion, valid for any non-negative day count. -/

def pad2 (n : Nat) : String := if n < 10 then "0" ++ toString n else toString n

def pad4 (n : Nat) : String :=
  if n < 10 then "000" ++ toString n
  else if n < 100 then "00" ++ toString n
  else if n < 1000 then "0" ++ toString n
  else toString n

def civilFromDays (z : Nat) : Nat × Nat × Nat :=
  let zp := z + 719468
  let era := zp / 146097
  let doe := zp % 146097
  let yoe := (doe - doe / 1460 + doe / 36524 - doe / 146096) / 365
  let y := yoe + era * 400
  let doy := doe - (365 * yoe + yoe / 4 - yoe / 100)
  let mp := (5 * doy + 2) / 153
  let d := doy - (153 * mp + 2) / 5 + 1
  let m := if mp < 10 then mp + 3 else mp - 9
  (if m ≤ 2 then y + 1 else y, m, d)

def dateString (secs : Nat) : String :=
  let c := civilFromDays (secs / 86400)
  pad4 c.1 ++ "-" ++ pad2 c.2.1 ++ "-" ++ pad2 c.2.2

/-! Raw upstream records.  The upstream JSON is an array of objects with a
unix timestamp date and a tvl that is a number or a string. -/

inductive RawVal where
  | num (x : ℚ)
  | text (s : String)
deriving DecidableEq

structure RawPoint where
  date : Nat
  tvl : RawVal
deriving DecidableEq

/-! pd.to_numeric with coerce keeps numbers and parses numeric strings,
turning anything malformed into NaN (here: none).  The string grammar is
modelled as optional sign, integer digits and an optional fractional part;
the scientific notation and surrounding whitespace that pandas would also
accept are not exercised by any claim. -/

def digitsToNat (cs : List Char) : Nat :=
  cs.foldl (fun acc c => acc * 10 + (c.toNat - 48)) 0

def ratOfDigits (ip fp : List Char) : ℚ :=
  (digitsToNat ip : ℚ) + (digitsToNat fp : ℚ) / ((10 : ℚ) ^ fp.length)

def parseUnsigned (cs : List Char) : Option ℚ :=
  let ip := cs.takeWhile Char.isDigit
  let rest := cs.dropWhile Char.isDigit
  match rest with
  | [] => if ip.isEmpty then none else some ((digitsToNat ip : ℕ) : ℚ)
  | c :: rest2 =>
    if c = '.' then
      let fp := rest2.takeWhile Char.isDigit
      if (rest2.dropWhile Char.isDigit).isEmpty && !(ip.isEmpty && fp.isEmpty)
      then some (ratOfDigits ip fp) else none
    else none

def parseNumStr (s : String) : Option ℚ :=
  match s.data with
  | [] => none
  | c :: cs =>
    if c = '-' then (parseUnsigned cs).map (fun q => -q)
    else if c = '+' then parseUnsigned cs
    else parseUnsigned (c :: cs)

def to_numeric : RawVal → Option ℚ
  | RawVal.num x => some x
  | RawVal.text s => parseNumStr s

/-! One row of the processed DataFrame: process_tvl_data formats the date,
adds the chain column and coerces tvl. -/

structure TvlRow where
  chain : String
  date : String
  tvl : Option ℚ
deriving DecidableEq

def mkRow (chain_id : String) (p : RawPoint) : TvlRow :=
  ⟨chain_id, dateString p.date, to_numeric p.tvl⟩

/-- Largest unix second representable as a datetime64 nanosecond value;
pd.to_datetime raises beyond it, which the except clause of
process_tvl_data turns into the value None. -/
def PANDAS_MAX_UNIX : Nat := 9223372036

/-- process_tvl_data: None for falsy input, None when the timestamp
conversion raises, otherwise one row per raw point, order preserved. -/
def process_tvl_data (data : List RawPoint) (chain_id : String) : Option (List TvlRow) :=
  if data.isEmpty then none
  else if data.any (fun p => PANDAS_MAX_UNIX < p.date) then none
  else some (data.map (mkRow chain_id))

/-! sort_values(date, ascending=False): descending in the date string. -/

def dateGe (a b : TvlRow) : Prop := strLe b.date a.date = true

instance : DecidableRel dateGe :=
  fun a b => instDecidableEqBool (strLe b.date a.date) true

def sortDesc (rows : List TvlRow) : List TvlRow := List.insertionSort dateGe rows

/-! Float arithmetic with NaN propagation on the Option model. -/

def optSub : Option ℚ → Option ℚ → Option ℚ
  | some a, some b => some (a - b)
  | _, _ => none

def optAdd : Option ℚ → Option ℚ → Option ℚ
  | some a, some b => some (a + b)
  | _, _ => none

def optGt0 : Option ℚ → Bool
  | some a => decide (0 < a)
  | none => false

def optPercent (change ytvl : Option ℚ) : Option ℚ :=
  match change, ytvl with
  | some c, some y => some (c / y * 100)
  | _, _ => none

/-! The per-chain summary record built by both JSON endpoints. -/

structure ChainSummary where
  chain : String
  latest_date : String
  tvl : Option ℚ
  tvl_change_24h : Option ℚ
  tvl_percent_change_24h : Option ℚ
  history : List (String × Option ℚ)
deriving DecidableEq, Inhabited

def change24 (latest : TvlRow) (rest : List TvlRow) : Option ℚ :=
  match rest with
  | [] => some 0
  | yesterday :: _ => optSub latest.tvl yesterday.tvl

def percent24 (latest : TvlRow) (rest : List TvlRow) : Option ℚ :=
  match rest with
  | [] => some 0
  | yesterday :: _ =>
    if optGt0 yesterday.tvl then optPercent (optSub latest.tvl yesterday.tvl) yesterday.tvl
    else some 0

/-- Lines 113 to 139 of app.py (shared verbatim by the all endpoint):
latest and yesterday are rows 0 and 1 of the date-descending sort, the 24h
change is their difference, the percentage guards on yesterday positive,
and history is the first 30 sorted rows restricted to date and tvl. -/
def summarize (chain_id : String) (df : List TvlRow) : Option ChainSummary :=
  match sortDesc df with
  | [] => none
  | latest :: rest =>
    some { chain := chain_id
           latest_date := latest.date
           tvl := latest.tvl
           tvl_change_24h := change24 latest rest
           tvl_percent_change_24h := percent24 latest rest
           history := ((sortDesc df).take 30).map (fun r => (r.date, r.tvl)) }

/-! The Fetcher: process-wide dictionaries tvl_cache and cache_time, one
entry per chain, and fetch_tvl_data with its one-hour freshness window. -/

structure CacheState where
  tvl_cache : String → Option (List RawPoint)
  cache_time : String → Option ℚ

structure FetchResult where
  result : Option (List RawPoint)
  state : CacheState
  networkCall : Bool

/-- tvl_cache[chain_id] = payload; cache_time[chain_id] = now. -/
def storePayload (st : CacheState) (now : ℚ) (chain_id : String)
    (payload : List RawPoint) : CacheState :=
  ⟨fun c => if c = chain_id then some payload else st.tvl_cache c,
   fun c => if c = chain_id then some now else st.cache_time c⟩

/-- The no-valid-cache path of fetch_tvl_data: one GET; on success store
the payload and stamp now, on any failure leave the cache untouched and
return None (the except clause). -/
def fetchFresh (st : CacheState) (now : ℚ)
    (upstream : String → Option (List RawPoint)) (chain_id : String) : FetchResult :=
  match upstream chain_id with
  | some payload => ⟨some payload, storePayload st now chain_id payload, true⟩
  | none => ⟨none, st, true⟩

/-- fetch_tvl_data: serve from cache when the stamp is younger than 3600
seconds, otherwise go to the network. -/
def fetch_tvl_data (st : CacheState) (now : ℚ)
    (upstream : String → Option (List RawPoint)) (chain_id : String) : FetchResult :=
  match st.cache_time chain_id with
  | some t =>
    if now - t < 3600 then ⟨st.tvl_cache chain_id, st, false⟩
    else fetchFresh st now upstream chain_id
  | none => fetchFresh st now upstream chain_id

/-! The HTTP boundary. -/

def CHAINS : List String :=
  ["Ethereum", "Solana", "Near", "Bitcoin", "Sui",
   "Aptos", "Arbitrum", "Sei", "Base", "BSC",
   "Polygon", "Optimism", "Fantom", "Avalanche", "Celo"]

def invalidChainMsg : String :=
  "Invalid chain ID. Supported chains: " ++ String.intercalate ", " CHAINS

inductive ChainResp where
  | badRequest (msg : String)
  | serverError (msg : String)
  | ok (summary : ChainSummary)
deriving DecidableEq

/-- The body of the single-chain endpoint after the fetch: a falsy payload
(None or the empty list) is reported as a fetch failure, a processing
failure as a processing failure, otherwise the summary is returned. -/
def respOf (chain_id : String) (res : Option (List RawPoint)) : ChainResp :=
  match res with
  | some (p :: ps) =>
    match process_tvl_data (p :: ps) chain_id with
    | some df =>
      match summarize chain_id df with
      | some s => ChainResp.ok s
      | none => ChainResp.serverError ("Failed to process data for " ++ chain_id)
    | none => ChainResp.serverError ("Failed to process data for " ++ chain_id)
  | _ => ChainResp.serverError ("Failed to fetch data for " ++ chain_id)

/-- GET /api/tvl/chain_id.  Returns the response, the cache state after the
request and whether an upstream HTTP call was made. -/
def get_tvl_for_chain (st : CacheState) (now : ℚ)
    (upstream : String → Option (List RawPoint)) (chain_id : String) :
    ChainResp × CacheState × Bool :=
  if chain_id ∈ CHAINS then
    (respOf chain_id (fetch_tvl_data st now upstream chain_id).result,
     (fetch_tvl_data st now upstream chain_id).state,
     (fetch_tvl_data st now upstream chain_id).networkCall)
  else (ChainResp.badRequest invalidChainMsg, st, false)

/-- One iteration of the fan-out loop of the all endpoint: on a truthy
payload that processes to a non-empty frame, append the summary and add its
latest tvl to the running total; otherwise only the cache state advances. -/
def allStep (now : ℚ) (upstream : String → Option (List RawPoint))
    (acc : List ChainSummary × Option ℚ × CacheState) (chain : String) :
    List ChainSummary × Option ℚ × CacheState :=
  match (fetch_tvl_data acc.2.2 now upstream chain).result with
  | some (p :: ps) =>
    match process_tvl_data (p :: ps) chain with
    | some df =>
      match summarize chain df with
      | some sm =>
        (acc.1 ++ [sm], optAdd acc.2.1 sm.tvl, (fetch_tvl_data acc.2.2 now upstream chain).state)
      | none => (acc.1, acc.2.1, (fetch_tvl_data acc.2.2 now upstream chain).state)
    | none => (acc.1, acc.2.1, (fetch_tvl_data acc.2.2 now upstream chain).state)
  | _ => (acc.1, acc.2.1, (fetch_tvl_data acc.2.2 now upstream chain).state)

structure AllResp where
  total_tvl : Option ℚ
  chains : List ChainSummary
deriving DecidableEq

/-- Descending-by-tvl order standing in for results.sort with
reverse=True.  When every key is numeric, the stable insertion sort below
returns exactly what the CPython stable sort returns.  A NaN key (a
malformed latest tvl) makes every CPython comparison false, so the program
then gives no ordering guarantee at all and can return a non-descending
list; this relation compares a missing tvl as 0 to stay total, so the
ordering of the model is faithful only when every included tvl is numeric,
and no ordering property is proved about the sorted result. -/
def tvlGe (a b : ChainSummary) : Prop := b.tvl.getD 0 ≤ a.tvl.getD 0

instance : DecidableRel tvlGe :=
  fun a b => inferInstanceAs (Decidable (b.tvl.getD 0 ≤ a.tvl.getD 0))

/-- GET /api/tvl/all: fan out over CHAINS, collect summaries and the total,
sort descending by tvl.  This endpoint has no error branch: the pair it
returns is always the 200 body. -/
def get_all_tvl (st : CacheState) (now : ℚ)
    (upstream : String → Option (List RawPoint)) : AllResp × CacheState :=
  (AllResp.mk
    (CHAINS.foldl (allStep now upstream) ([], some 0, st)).2.1
    (List.insertionSort tvlGe (CHAINS.foldl (allStep now upstream) ([], some 0, st)).1),
   (CHAINS.foldl (allStep now upstream) ([], some 0, st)).2.2)

/-- One iteration of the fan-out loop of the csv endpoint: keep the whole
processed frame of each successful chain. -/
def csvStep (now : ℚ) (upstream : String → Option (List RawPoint))
    (acc : List (List TvlRow) × CacheState) (chain : String) :
    List (List TvlRow) × CacheState :=
  match (fetch_tvl_data acc.2 now upstream chain).result with
  | some (p :: ps) =>
    match process_tvl_data (p :: ps) chain with
    | some df => (acc.1 ++ [df], (fetch_tvl_data acc.2 now upstream chain).state)
    | none => (acc.1, (fetch_tvl_data acc.2 now upstream chain).state)
  | _ => (acc.1, (fetch_tvl_data acc.2 now upstream chain).state)

/-- Ascending order on the pair of chain and date used by
sort_values on the columns chain and date. -/
def rowLe (a b : TvlRow) : Prop :=
  (if a.chain = b.chain then strLe a.date b.date else strLe a.chain b.chain) = true

instance : DecidableRel rowLe :=
  fun a b =>
    instDecidableEqBool (if a.chain = b.chain then strLe a.date b.date else strLe a.chain b.chain) true

/-- GET /api/tvl/csv: fan out, concatenate the per-chain frames, error with
a 500 body when nothing was collected, otherwise sort by chain then date
and serialise.  The ok branch carries the sorted row list. -/
def get_tvl_csv (st : CacheState) (now : ℚ)
    (upstream : String → Option (List RawPoint)) : Except String (List TvlRow) × CacheState :=
  if (CHAINS.foldl (csvStep now upstream) ([], st)).1.isEmpty then
    (Except.error "No data available to export",
     (CHAINS.foldl (csvStep now upstream) ([], st)).2)
  else
    (Except.ok (List.insertionSort rowLe (CHAINS.foldl (csvStep now upstream) ([], st)).1.flatten),
     (CHAINS.foldl (csvStep now upstream) ([], st)).2)

/-! Concrete fixtures used by the witness theorems. -/

/-- A cache with no entries. -/
def emptyCache : CacheState := ⟨fun _ => none, fun _ => none⟩

/-- An upstream that fails every request. -/
def deadUpstream : String → Option (List RawPoint) := fun _ => none

/-- An upstream that answers every request with 200 and an empty JSON array. -/
def nilUpstream : String → Option (List RawPoint) := fun _ => some []

/-- The two-point series of the spec example: one day apart, tvl strings. -/
def exPayload : List RawPoint :=
  [RawPoint.mk 1000 (RawVal.text "100"), RawPoint.mk 87400 (RawVal.text "110")]

def exRows : List TvlRow := exPayload.map (mkRow "Ethereum")

def exLatest : TvlRow := mkRow "Ethereum" (RawPoint.mk 87400 (RawVal.text "110"))

def exYesterday : TvlRow := mkRow "Ethereum" (RawPoint.mk 1000 (RawVal.text "100"))

def exSummary : ChainSummary := (summarize "Ethereum" exRows).getD default

/-- A cache holding exPayload for Ethereum, fetched at time 0. -/
def exCache : CacheState :=
  ⟨fun c => if c = "Ethereum" then some exPayload else none,
   fun c => if c = "Ethereum" then some 0 else none⟩

/-- A numeric point and a malformed-string point. -/
def exData2 : List RawPoint :=
  [RawPoint.mk 0 (RawVal.num 5), RawPoint.mk 86400 (RawVal.text "abc")]

def exRows2 : List TvlRow := exData2.map (mkRow "Solana")

/-- First request of the C10 scenario: empty cache, upstream returns an
empty array. -/
def c10call1 : ChainResp × CacheState × Bool :=
  get_tvl_for_chain emptyCache 0 nilUpstream "Ethereum"

/-- Second request of the C10 scenario, 100 seconds later. -/
def c10call2 : ChainResp × CacheState × Bool :=
  get_tvl_for_chain c10call1.2.1 100 nilUpstream "Ethereum"

/-! Helper lemmas. -/

theorem charListLe_total : ∀ as bs, charListLe as bs = true ∨ charListLe bs as = true := by
  intro as
  induction as with
  | nil => intro bs; exact Or.inl rfl
  | cons a as ih =>
    intro bs
    cases bs with
    | nil => exact Or.inr rfl
    | cons b bs =>
      simp only [charListLe]
      rcases Nat.lt_trichotomy a.toNat b.toNat with h | h | h
      · left; simp [h]
      · simp only [h, lt_self_iff_false, if_false]
        exact ih bs
      · right; simp [h]

theorem charListLe_trans :
    ∀ as bs cs, charListLe as bs = true → charListLe bs cs = true →
      charListLe as cs = true := by
  intro as
  induction as with
  | nil => intro bs cs _ _; rfl
  | cons a as ih =>
    intro bs cs h1 h2
    cases bs with
    | nil => simp [charListLe] at h1
    | cons b bs =>
      cases cs with
      | nil => simp [charListLe] at h2
      | cons c cs =>
        simp only [charListLe] at h1 h2 ⊢
        split_ifs at h1 h2 ⊢ <;>
          first
          | rfl
          | omega
          | (exact ih bs cs h1 h2)

theorem strLe_total (a b : String) : strLe a b = true ∨ strLe b a = true :=
  charListLe_total a.data b.data

theorem strLe_trans {a b c : String} (h1 : strLe a b = true) (h2 : strLe b c = true) :
    strLe a c = true :=
  charListLe_trans a.data b.data c.data h1 h2

theorem process_some {data : List RawPoint} {chain_id : String} {rows : List TvlRow}
    (h : process_tvl_data data chain_id = some rows) :
    rows = data.map (mkRow chain_id) ∧ data ≠ [] := by
  unfold process_tvl_data at h
  split_ifs at h with h1 h2
  exact ⟨(Option.some.inj h).symm, fun hnil => by rw [hnil] at h1; exact h1 rfl⟩

theorem storePayload_time_self (st : CacheState) (now : ℚ) (chain_id : String)
    (payload : List RawPoint) :
    (storePayload st now chain_id payload).cache_time chain_id = some now := by
  simp [storePayload]

theorem storePayload_cache_self (st : CacheState) (now : ℚ) (chain_id : String)
    (payload : List RawPoint) :
    (storePayload st now chain_id payload).tvl_cache chain_id = some payload := by
  simp [storePayload]

theorem storePayload_other (st : CacheState) (now : ℚ) (chain_id c : String)
    (payload : List RawPoint) (h : c ≠ chain_id) :
    (storePayload st now chain_id payload).cache_time c = st.cache_time c ∧
    (storePayload st now chain_id payload).tvl_cache c = st.tvl_cache c := by
  simp [storePayload, h]

theorem fetch_result_congr (st₁ st₂ : CacheState) (now : ℚ)
    (upstream : String → Option (List RawPoint)) (c : String)
    (h1 : st₁.cache_time c = st₂.cache_time c) (h2 : st₁.tvl_cache c = st₂.tvl_cache c) :
    (fetch_tvl_data st₁ now upstream c).result = (fetch_tvl_data st₂ now upstream c).result := by
  unfold fetch_tvl_data fetchFresh
  rw [h1, h2]
  cases st₂.cache_time c with
  | none => cases upstream c <;> rfl
  | some t =>
    by_cases h : now - t < 3600
    · simp [h]
    · simp only [if_neg h]
      cases upstream c <;> rfl

theorem fetch_preserves_other (st : CacheState) (now : ℚ)
    (upstream : String → Option (List RawPoint)) (chain_id c : String)
    (h : c ≠ chain_id) :
    (fetch_tvl_data st now upstream chain_id).state.cache_time c = st.cache_time c ∧
    (fetch_tvl_data st now upstream chain_id).state.tvl_cache c = st.tvl_cache c := by
  unfold fetch_tvl_data fetchFresh
  cases st.cache_time chain_id with
  | none =>
    cases upstream chain_id with
    | none => exact ⟨rfl, rfl⟩
    | some payload => exact storePayload_other st now chain_id c payload h
  | some t =>
    by_cases hfresh : now - t < 3600
    · simp [hfresh]
    · simp only [if_neg hfresh]
      cases upstream chain_id with
      | none => exact ⟨rfl, rfl⟩
      | some payload => exact storePayload_other st now chain_id c payload h

theorem fetchFresh_none (st : CacheState) (now : ℚ)
    (upstream : String → Option (List RawPoint)) (chain_id : String)
    (h : upstream chain_id = none) :
    fetchFresh st now upstream chain_id = FetchResult.mk none st true := by
  unfold fetchFresh
  rw [h]

theorem fetchFresh_some (st : CacheState) (now : ℚ)
    (upstream : String → Option (List RawPoint)) (chain_id : String)
    (payload : List RawPoint) (h : upstream chain_id = some payload) :
    fetchFresh st now upstream chain_id =
      FetchResult.mk (some payload) (storePayload st now chain_id payload) true := by
  unfold fetchFresh
  rw [h]

theorem fetchFresh_networkCall (st : CacheState) (now : ℚ)
    (upstream : String → Option (List RawPoint)) (chain_id : String) :
    (fetchFresh st now upstream chain_id).networkCall = true := by
  unfold fetchFresh
  cases upstream chain_id <;> rfl

theorem fetch_eq_hit (st : CacheState) (now : ℚ)
    (upstream : String → Option (List RawPoint)) (chain_id : String) (t0 : ℚ)
    (h0 : st.cache_time chain_id = some t0) (hlt : now - t0 < 3600) :
    fetch_tvl_data st now upstream chain_id =
      FetchResult.mk (st.tvl_cache chain_id) st false := by
  unfold fetch_tvl_data
  split
  · next t heq =>
    cases Option.some.inj (heq.symm.trans h0)
    rw [if_pos hlt]
  · next heq => rw [h0] at heq; cases heq

theorem fetch_eq_miss (st : CacheState) (now : ℚ)
    (upstream : String → Option (List RawPoint)) (chain_id : String)
    (hstale : ∀ t, st.cache_time chain_id = some t → 3600 ≤ now - t) :
    fetch_tvl_data st now upstream chain_id = fetchFresh st now upstream chain_id := by
  unfold fetch_tvl_data
  split
  · next t heq => rw [if_neg (not_lt.mpr (hstale t heq))]
  · rfl

theorem allStep_of_fail (now : ℚ) (upstream : String → Option (List RawPoint))
    (acc : List ChainSummary × Option ℚ × CacheState) (c : String)
    (h : ∀ payload, (fetch_tvl_data acc.2.2 now upstream c).result = some payload →
      process_tvl_data payload c = none) :
    allStep now upstream acc c =
      (acc.1, acc.2.1, (fetch_tvl_data acc.2.2 now upstream c).state) := by
  unfold allStep
  split
  · next p ps heq => rw [h (p :: ps) heq]
  · rfl

theorem csvStep_of_fail (now : ℚ) (upstream : String → Option (List RawPoint))
    (acc : List (List TvlRow) × CacheState) (c : String)
    (h : ∀ payload, (fetch_tvl_data acc.2 now upstream c).result = some payload →
      process_tvl_data payload c = none) :
    csvStep now upstream acc c = (acc.1, (fetch_tvl_data acc.2 now upstream c).state) := by
  unfold csvStep
  split
  · next p ps heq => rw [h (p :: ps) heq]
  · rfl

theorem foldl_allStep_fail (now : ℚ) (upstream : String → Option (List RawPoint))
    (st : CacheState) :
    ∀ l : List String, l.Nodup →
      (∀ c ∈ l, ∀ payload, (fetch_tvl_data st now upstream c).result = some payload →
        process_tvl_data payload c = none) →
      ∀ (res : List ChainSummary) (tot : Option ℚ) (cur : CacheState),
        (∀ c ∈ l, cur.cache_time c = st.cache_time c ∧ cur.tvl_cache c = st.tvl_cache c) →
        (l.foldl (allStep now upstream) (res, tot, cur)).1 = res ∧
        (l.foldl (allStep now upstream) (res, tot, cur)).2.1 = tot := by
  intro l
  induction l with
  | nil => intro _ _ res tot cur _; exact ⟨rfl, rfl⟩
  | cons c l ih =>
    intro hnd hfail res tot cur hagree
    have hag := hagree c (List.mem_cons_self c l)
    have hres : (fetch_tvl_data cur now upstream c).result =
        (fetch_tvl_data st now upstream c).result :=
      fetch_result_congr cur st now upstream c hag.1 hag.2
    have hstep : allStep now upstream (res, tot, cur) c =
        (res, tot, (fetch_tvl_data cur now upstream c).state) :=
      allStep_of_fail now upstream (res, tot, cur) c (fun payload hp =>
        hfail c (List.mem_cons_self c l) payload (hres.symm.trans hp))
    rw [List.foldl_cons, hstep]
    refine ih (List.nodup_cons.mp hnd).2
      (fun c' hc' => hfail c' (List.mem_cons_of_mem c hc')) res tot _ ?_
    intro c' hc'
    have hne : c' ≠ c := fun he => (List.nodup_cons.mp hnd).1 (he ▸ hc')
    obtain ⟨e1, e2⟩ := fetch_preserves_other cur now upstream c c' hne
    exact ⟨e1.trans (hagree c' (List.mem_cons_of_mem c hc')).1,
           e2.trans (hagree c' (List.mem_cons_of_mem c hc')).2⟩

theorem foldl_csvStep_fail (now : ℚ) (upstream : String → Option (List RawPoint))
    (st : CacheState) :
    ∀ l : List String, l.Nodup →
      (∀ c ∈ l, ∀ payload, (fetch_tvl_data st now upstream c).result = some payload →
        process_tvl_data payload c = none) →
      ∀ (dfs : List (List TvlRow)) (cur : CacheState),
        (∀ c ∈ l, cur.cache_time c = st.cache_time c ∧ cur.tvl_cache c = st.tvl_cache c) →
        (l.foldl (csvStep now upstream) (dfs, cur)).1 = dfs := by
  intro l
  induction l with
  | nil => intro _ _ dfs cur _; rfl
  | cons c l ih =>
    intro hnd hfail dfs cur hagree
    have hag := hagree c (List.mem_cons_self c l)
    have hres : (fetch_tvl_data cur now upstream c).result =
        (fetch_tvl_data st now upstream c).result :=
      fetch_result_congr cur st now upstream c hag.1 hag.2
    have hstep : csvStep now upstream (dfs, cur) c =
        (dfs, (fetch_tvl_data cur now upstream c).state) :=
      csvStep_of_fail now upstream (dfs, cur) c (fun payload hp =>
        hfail c (List.mem_cons_self c l) payload (hres.symm.trans hp))
    rw [List.foldl_cons, hstep]
    refine ih (List.nodup_cons.mp hnd).2
      (fun c' hc' => hfail c' (List.mem_cons_of_mem c hc')) dfs _ ?_
    intro c' hc'
    have hne : c' ≠ c := fun he => (List.nodup_cons.mp hnd).1 (he ▸ hc')
    obtain ⟨e1, e2⟩ := fetch_preserves_other cur now upstream c c' hne
    exact ⟨e1.trans (hagree c' (List.mem_cons_of_mem c hc')).1,
           e2.trans (hagree c' (List.mem_cons_of_mem c hc')).2⟩

/-! Claim theorems. -/

/-- C5: for every chain identifier outside the fixed 15-element set, the
single-chain endpoint returns the 400 invalid-chain body, leaves the cache
untouched and performs no fetch, hence no upstream call. -/
theorem invalid_chain_spec (st : CacheState) (now : ℚ)
    (upstream : String → Option (List RawPoint)) (chain_id : String)
    (h : chain_id ∉ CHAINS) :
    get_tvl_for_chain st now upstream chain_id =
      (ChainResp.badRequest invalidChainMsg, st, false) := by
  unfold get_tvl_for_chain
  rw [if_neg h]

/-- Instance of invalid_chain_spec at the unsupported identifier Dogecoin. -/
theorem invalid_chain_spec_witness :
    "Dogecoin" ∉ CHAINS ∧
    get_tvl_for_chain emptyCache 0 deadUpstream "Dogecoin" =
      (ChainResp.badRequest invalidChainMsg, emptyCache, false) :=
  ⟨by decide, invalid_chain_spec emptyCache 0 deadUpstream "Dogecoin" (by decide)⟩

/-- C6: when the upstream request fails (network error, non-2xx status and
a JSON parse failure all raise and are caught by the same except clause,
modelled as upstream returning none) and no fresh cache entry short-cuts
the call, fetch_tvl_data returns None to the caller as a value rather than
raising, and the cache state it returns is exactly the input state: neither
the stored payload nor fetched_at changes for any chain. -/
theorem fetch_failure_spec (st : CacheState) (now : ℚ)
    (upstream : String → Option (List RawPoint)) (chain_id : String)
    (hup : upstream chain_id = none)
    (hstale : ∀ t, st.cache_time chain_id = some t → 3600 ≤ now - t) :
    fetch_tvl_data st now upstream chain_id = FetchResult.mk none st true :=
  (fetch_eq_miss st now upstream chain_id hstale).trans
    (fetchFresh_none st now upstream chain_id hup)

/-- Instance of fetch_failure_spec: empty cache, upstream down. -/
theorem fetch_failure_spec_witness :
    deadUpstream "Ethereum" = none ∧
    fetch_tvl_data emptyCache 0 deadUpstream "Ethereum" =
      FetchResult.mk none emptyCache true :=
  ⟨rfl, fetch_failure_spec emptyCache 0 deadUpstream "Ethereum" rfl
    (fun _ h => nomatch h)⟩

/-- C1: the cache policy of fetch_tvl_data and its consequences.  First, a
cache stamp younger than 3600 seconds makes fetch return the cached payload
with no network call and no state change.  Second, once every stamp for the
chain is at least 3600 seconds old (or absent), fetch issues a network
call.  Third, from a state produced by a successful fetch at time t1, two
endpoint calls both within 3600 seconds of t1 return identical output, and
neither issues an upstream call, so together with the fetch that filled the
cache at most one upstream call is made. -/
theorem cache_policy_spec (st : CacheState) (now t1 t2 : ℚ)
    (upstream : String → Option (List RawPoint)) (chain_id : String)
    (payload : List RawPoint) (hchain : chain_id ∈ CHAINS) :
    (∀ t0, st.cache_time chain_id = some t0 → now - t0 < 3600 →
      fetch_tvl_data st now upstream chain_id =
        FetchResult.mk (st.tvl_cache chain_id) st false) ∧
    ((∀ t0, st.cache_time chain_id = some t0 → 3600 ≤ now - t0) →
      (fetch_tvl_data st now upstream chain_id).networkCall = true) ∧
    (st.cache_time chain_id = some t1 → st.tvl_cache chain_id = some payload →
      now - t1 < 3600 → t2 - t1 < 3600 →
      (get_tvl_for_chain st now upstream chain_id).1 =
        (get_tvl_for_chain (get_tvl_for_chain st now upstream chain_id).2.1
          t2 upstream chain_id).1 ∧
      (get_tvl_for_chain st now upstream chain_id).2.2 = false ∧
      (get_tvl_for_chain (get_tvl_for_chain st now upstream chain_id).2.1
        t2 upstream chain_id).2.2 = false) := by
  refine ⟨?_, ?_, ?_⟩
  · intro t0 h0 hlt
    exact fetch_eq_hit st now upstream chain_id t0 h0 hlt
  · intro hstale
    rw [fetch_eq_miss st now upstream chain_id hstale]
    exact fetchFresh_networkCall st now upstream chain_id
  · intro h1 h2 hn ht
    have hf1 : fetch_tvl_data st now upstream chain_id =
        FetchResult.mk (some payload) st false := by
      have h := fetch_eq_hit st now upstream chain_id t1 h1 hn
      rw [h2] at h
      exact h
    have hf2 : fetch_tvl_data st t2 upstream chain_id =
        FetchResult.mk (some payload) st false := by
      have h := fetch_eq_hit st t2 upstream chain_id t1 h1 ht
      rw [h2] at h
      exact h
    have hcall1 : get_tvl_for_chain st now upstream chain_id =
        (respOf chain_id (some payload), st, false) := by
      unfold get_tvl_for_chain; rw [if_pos hchain, hf1]
    have hcall2 : get_tvl_for_chain st t2 upstream chain_id =
        (respOf chain_id (some payload), st, false) := by
      unfold get_tvl_for_chain; rw [if_pos hchain, hf2]
    have hstate1 : (get_tvl_for_chain st now upstream chain_id).2.1 = st := by
      rw [hcall1]
    refine ⟨?_, ?_, ?_⟩
    · rw [hstate1, hcall1, hcall2]
    · rw [hcall1]
    · rw [hstate1, hcall2]

/-- Instance of cache_policy_spec on exCache (payload cached at time 0):
a hit at time 10, a forced refetch at time 7200, and the two-call scenario
at times 10 and 20. -/
theorem cache_policy_spec_witness :
    fetch_tvl_data exCache 10 deadUpstream "Ethereum" =
      FetchResult.mk (exCache.tvl_cache "Ethereum") exCache false ∧
    (fetch_tvl_data exCache 7200 deadUpstream "Ethereum").networkCall = true ∧
    ((get_tvl_for_chain exCache 10 deadUpstream "Ethereum").1 =
      (get_tvl_for_chain (get_tvl_for_chain exCache 10 deadUpstream "Ethereum").2.1
        20 deadUpstream "Ethereum").1 ∧
     (get_tvl_for_chain exCache 10 deadUpstream "Ethereum").2.2 = false ∧
     (get_tvl_for_chain (get_tvl_for_chain exCache 10 deadUpstream "Ethereum").2.1
       20 deadUpstream "Ethereum").2.2 = false) := by
  have h10 := cache_policy_spec exCache 10 0 20 deadUpstream "Ethereum" exPayload (by decide)
  have h72 := cache_policy_spec exCache 7200 0 20 deadUpstream "Ethereum" exPayload (by decide)
  refine ⟨h10.1 0 rfl ?_, h72.2.1 ?_, h10.2.2 rfl rfl ?_ ?_⟩
  · rw [sub_zero]; decide
  · intro t0 h0
    cases Option.some.inj h0
    rw [sub_zero]; decide
  · rw [sub_zero]; decide
  · rw [sub_zero]; decide

/-- C10: with an empty or stale cache, a 2xx upstream response whose body
is the empty JSON array is stored in the cache with fetched_at = now, yet
the single-chain endpoint reports the fetch-failure error body for it; a
second request within the 3600-second window returns the same 500 from the
cached empty payload without contacting upstream and without changing the
cache. -/
theorem empty_payload_spec (st : CacheState) (now t2 : ℚ)
    (upstream : String → Option (List RawPoint)) (chain_id : String)
    (hchain : chain_id ∈ CHAINS)
    (hup : upstream chain_id = some [])
    (hstale : ∀ t, st.cache_time chain_id = some t → 3600 ≤ now - t)
    (hwin : t2 - now < 3600) :
    (get_tvl_for_chain st now upstream chain_id).1 =
      ChainResp.serverError ("Failed to fetch data for " ++ chain_id) ∧
    (get_tvl_for_chain st now upstream chain_id).2.2 = true ∧
    (get_tvl_for_chain st now upstream chain_id).2.1.tvl_cache chain_id = some [] ∧
    (get_tvl_for_chain st now upstream chain_id).2.1.cache_time chain_id = some now ∧
    (get_tvl_for_chain (get_tvl_for_chain st now upstream chain_id).2.1
      t2 upstream chain_id).1 =
      ChainResp.serverError ("Failed to fetch data for " ++ chain_id) ∧
    (get_tvl_for_chain (get_tvl_for_chain st now upstream chain_id).2.1
      t2 upstream chain_id).2.2 = false ∧
    (get_tvl_for_chain (get_tvl_for_chain st now upstream chain_id).2.1
      t2 upstream chain_id).2.1 =
      (get_tvl_for_chain st now upstream chain_id).2.1 := by
  have hf1 : fetch_tvl_data st now upstream chain_id =
      FetchResult.mk (some []) (storePayload st now chain_id []) true :=
    (fetch_eq_miss st now upstream chain_id hstale).trans
      (fetchFresh_some st now upstream chain_id [] hup)
  have hcall1 : get_tvl_for_chain st now upstream chain_id =
      (ChainResp.serverError ("Failed to fetch data for " ++ chain_id),
       storePayload st now chain_id [], true) := by
    unfold get_tvl_for_chain
    rw [if_pos hchain, hf1]
    rfl
  have hstate1 : (get_tvl_for_chain st now upstream chain_id).2.1 =
      storePayload st now chain_id [] := by
    rw [hcall1]
  have hf2 : fetch_tvl_data (storePayload st now chain_id []) t2 upstream chain_id =
      FetchResult.mk (some []) (storePayload st now chain_id []) false := by
    have h := fetch_eq_hit (storePayload st now chain_id []) t2 upstream chain_id now
      (storePayload_time_self st now chain_id []) hwin
    rw [storePayload_cache_self] at h
    exact h
  have hcall2 : get_tvl_for_chain (storePayload st now chain_id []) t2 upstream chain_id =
      (ChainResp.serverError ("Failed to fetch data for " ++ chain_id),
       storePayload st now chain_id [], false) := by
    unfold get_tvl_for_chain
    rw [if_pos hchain, hf2]
    rfl
  refine ⟨?_, ?_, ?_, ?_, ?_, ?_, ?_⟩
  · rw [hcall1]
  · rw [hcall1]
  · rw [hstate1, storePayload_cache_self]
  · rw [hstate1, storePayload_time_self]
  · rw [hstate1, hcall2]
  · rw [hstate1, hcall2]
  · rw [hstate1, hcall2]

/-- Instance of empty_payload_spec: empty cache, upstream answering with
the empty array, requests at times 0 and 100. -/
theorem empty_payload_spec_witness :
    c10call1.1 = ChainResp.serverError ("Failed to fetch data for " ++ "Ethereum") ∧
    c10call1.2.2 = true ∧
    c10call1.2.1.tvl_cache "Ethereum" = some [] ∧
    c10call1.2.1.cache_time "Ethereum" = some 0 ∧
    c10call2.1 = ChainResp.serverError ("Failed to fetch data for " ++ "Ethereum") ∧
    c10call2.2.2 = false ∧
    c10call2.2.1 = c10call1.2.1 :=
  empty_payload_spec emptyCache 0 100 nilUpstream "Ethereum" (by decide) rfl
    (fun _ h => nomatch h) (by rw [sub_zero]; decide)

/-- C2: for a processed series whose descending sort has at least two
rows, the summary reports tvl_change_24h as latest minus second and
tvl_percent_change_24h as change over second times 100 when the second tvl
is positive and 0 otherwise; for a series of exactly one raw point, both
are 0. -/
theorem change_24h_spec (data : List RawPoint) (chain_id : String) (rows : List TvlRow)
    (hp : process_tvl_data data chain_id = some rows) :
    (∀ latest yesterday rest s,
      sortDesc rows = latest :: yesterday :: rest →
      summarize chain_id rows = some s →
      s.tvl_change_24h = optSub latest.tvl yesterday.tvl ∧
      s.tvl_percent_change_24h =
        (if optGt0 yesterday.tvl then
          optPercent (optSub latest.tvl yesterday.tvl) yesterday.tvl
         else some 0)) ∧
    (∀ p, data = [p] → ∀ s, summarize chain_id rows = some s →
      s.tvl_change_24h = some 0 ∧ s.tvl_percent_change_24h = some 0) := by
  constructor
  · intro latest yesterday rest s hsort hsum
    unfold summarize at hsum
    rw [hsort] at hsum
    cases Option.some.inj hsum
    exact ⟨rfl, rfl⟩
  · intro p hdata s hsum
    obtain ⟨hrows, -⟩ := process_some hp
    subst hdata
    have hsort : sortDesc rows = [mkRow chain_id p] := by rw [hrows]; rfl
    unfold summarize at hsum
    rw [hsort] at hsum
    cases Option.some.inj hsum
    exact ⟨rfl, rfl⟩

/-- Instance of change_24h_spec on the spec example series: points one day
apart with tvl strings 100 and 110. -/
theorem change_24h_spec_witness :
    process_tvl_data exPayload "Ethereum" = some exRows ∧
    sortDesc exRows = [exLatest, exYesterday] ∧
    summarize "Ethereum" exRows = some exSummary ∧
    exSummary.tvl_change_24h = optSub exLatest.tvl exYesterday.tvl ∧
    exSummary.tvl_percent_change_24h =
      (if optGt0 exYesterday.tvl then
        optPercent (optSub exLatest.tvl exYesterday.tvl) exYesterday.tvl
       else some 0) := by
  have h := (change_24h_spec exPayload "Ethereum" exRows rfl).1
    exLatest exYesterday [] exSummary rfl rfl
  exact ⟨rfl, rfl, rfl, h.1, h.2⟩

/-- Values of the spec example: the summary reports latest tvl 110, change
10 and percent change 10. -/
theorem exSummary_values :
    exSummary.tvl = some 110 ∧
    exSummary.latest_date = "1970-01-02" ∧
    exSummary.tvl_change_24h = some 10 ∧
    exSummary.tvl_percent_change_24h = some 10 := by
  refine ⟨rfl, rfl, ?_, ?_⟩
  · show some (((110 : ℕ) : ℚ) - ((100 : ℕ) : ℚ)) = some 10
    norm_num
  · show some ((((110 : ℕ) : ℚ) - ((100 : ℕ) : ℚ)) / ((100 : ℕ) : ℚ) * 100) = some 10
    norm_num

/-- C8: for every accepted series, the history of the summary is the first
30 rows of the descending sort projected to date and tvl, its length is
min 30 n where n is the number of raw points, and it is descending in the
date. -/
theorem history_spec (data : List RawPoint) (chain_id : String) (rows : List TvlRow)
    (hp : process_tvl_data data chain_id = some rows)
    (s : ChainSummary) (hs : summarize chain_id rows = some s) :
    s.history = ((sortDesc rows).take 30).map (fun r => (r.date, r.tvl)) ∧
    s.history.length = min 30 data.length ∧
    s.history.Sorted (fun a b => strLe b.1 a.1 = true) := by
  obtain ⟨hrows, -⟩ := process_some hp
  have hhist : s.history = ((sortDesc rows).take 30).map (fun r => (r.date, r.tvl)) := by
    unfold summarize at hs
    rcases hh : sortDesc rows with - | ⟨latest, rest⟩
    · rw [hh] at hs; exact Option.noConfusion hs
    · rw [hh] at hs
      cases Option.some.inj hs
      rfl
  refine ⟨hhist, ?_, ?_⟩
  · rw [hhist, List.length_map, List.length_take]
    unfold sortDesc
    rw [List.length_insertionSort, hrows, List.length_map]
  · rw [hhist]
    haveI : IsTotal TvlRow dateGe := ⟨fun a b => strLe_total b.date a.date⟩
    haveI : IsTrans TvlRow dateGe := ⟨fun _ _ _ h1 h2 => strLe_trans h2 h1⟩
    have hsorted : (sortDesc rows).Sorted dateGe := List.sorted_insertionSort dateGe rows
    have htake : ((sortDesc rows).take 30).Sorted dateGe :=
      List.Pairwise.sublist (List.take_sublist 30 (sortDesc rows)) hsorted
    exact List.pairwise_map.mpr htake

/-- Instance of history_spec on the two-point example series. -/
theorem history_spec_witness :
    process_tvl_data exPayload "Ethereum" = some exRows ∧
    summarize "Ethereum" exRows = some exSummary ∧
    exSummary.history = ((sortDesc exRows).take 30).map (fun r => (r.date, r.tvl)) ∧
    exSummary.history.length = min 30 exPayload.length ∧
    exSummary.history.Sorted (fun a b => strLe b.1 a.1 = true) := by
  have h := history_spec exPayload "Ethereum" exRows rfl exSummary rfl
  exact ⟨rfl, rfl, h.1, h.2.1, h.2.2⟩

/-- C9 counterexample: the Transformer accepts a raw point whose tvl is the
number minus one and produces a row whose present tvl is negative, so the
claim that every produced tvl is non-negative when present fails on the
code: nothing in process_tvl_data checks sign. -/
theorem tvl_nonneg_counterexample :
    process_tvl_data [RawPoint.mk 0 (RawVal.num (-1))] "Ethereum" =
      some [TvlRow.mk "Ethereum" "1970-01-01" (some (-1))] ∧
    ¬ ((0 : ℚ) ≤ -1) := by
  constructor
  · rfl
  · decide

/-- C9 amended: every accepted raw point is retained as exactly one row
whose tvl is the coercion of its raw tvl (none for a malformed string, so
the row is kept rather than dropped and no error is raised), and the
produced tvl values are non-negative whenever the coercions of the raw
inputs are non-negative. -/
theorem tvl_coercion_spec (data : List RawPoint) (chain_id : String) (rows : List TvlRow)
    (hp : process_tvl_data data chain_id = some rows)
    (hnn : ∀ p ∈ data, ∀ x : ℚ, to_numeric p.tvl = some x → 0 ≤ x) :
    rows = data.map (mkRow chain_id) ∧
    (∀ r ∈ rows, ∀ x : ℚ, r.tvl = some x → 0 ≤ x) := by
  obtain ⟨hrows, -⟩ := process_some hp
  refine ⟨hrows, ?_⟩
  intro r hr x hx
  rw [hrows] at hr
  obtain ⟨p, hp2, rfl⟩ := List.mem_map.mp hr
  exact hnn p hp2 x hx

/-- Instance of tvl_coercion_spec: a numeric point and a malformed string
point; the malformed row is retained with a missing tvl. -/
theorem tvl_coercion_spec_witness :
    process_tvl_data exData2 "Solana" = some exRows2 ∧
    exRows2 = exData2.map (mkRow "Solana") ∧
    (∀ r ∈ exRows2, ∀ x : ℚ, r.tvl = some x → 0 ≤ x) := by
  have h := tvl_coercion_spec exData2 "Solana" exRows2 rfl ?hnn
  case hnn =>
    intro p hp x hx
    simp only [exData2, List.mem_cons, List.not_mem_nil, or_false] at hp
    rcases hp with rfl | rfl
    · cases Option.some.inj hx
      decide
    · exact Option.noConfusion hx
  exact ⟨rfl, h.1, h.2⟩

/-- The row of the malformed point of exData2 is present with tvl none. -/
theorem malformed_row_retained :
    exRows2 = [TvlRow.mk "Solana" "1970-01-01" (some 5),
               TvlRow.mk "Solana" "1970-01-02" none] := by
  decide

/-- C3: when every fetch-and-process pipeline fails, the all endpoint still
answers 200 (its response type has no error alternative) with an empty
chains list and total_tvl 0, while the csv endpoint answers the 500 error
body No data available to export: the two multi-chain endpoints are
asymmetric on the empty result. -/
theorem all_fail_asymmetry_spec (st : CacheState) (now : ℚ)
    (upstream : String → Option (List RawPoint))
    (hfail : ∀ c ∈ CHAINS, ∀ payload,
      (fetch_tvl_data st now upstream c).result = some payload →
      process_tvl_data payload c = none) :
    (get_all_tvl st now upstream).1 = AllResp.mk (some 0) [] ∧
    (get_tvl_csv st now upstream).1 = Except.error "No data available to export" := by
  have hnd : CHAINS.Nodup := by decide
  have hagree : ∀ c ∈ CHAINS,
      st.cache_time c = st.cache_time c ∧ st.tvl_cache c = st.tvl_cache c :=
    fun _ _ => ⟨rfl, rfl⟩
  obtain ⟨h1, h2⟩ := foldl_allStep_fail now upstream st CHAINS hnd hfail [] (some 0) st hagree
  have h3 := foldl_csvStep_fail now upstream st CHAINS hnd hfail [] st hagree
  constructor
  · unfold get_all_tvl
    rw [h1, h2]
    rfl
  · unfold get_tvl_csv
    rw [if_pos (by rw [h3]; rfl)]

/-- Instance of all_fail_asymmetry_spec: empty cache and an upstream that
fails every request. -/
theorem all_fail_asymmetry_spec_witness :
    (get_all_tvl emptyCache 0 deadUpstream).1 = AllResp.mk (some 0) [] ∧
    (get_tvl_csv emptyCache 0 deadUpstream).1 =
      Except.error "No data available to export" :=
  all_fail_asymmetry_spec emptyCache 0 deadUpstream
    (fun _ _ _ h => Option.noConfusion h)

end TvlApp
